import Mathlib

/-!
Shallow embedding of the turret controller in `src/mech/turret.cc`
(mjmech hoverbot).  Doubles are modelled as rationals, C++ `int` values
as `Int` (all values reached here are far below the 32-bit range except
where a wrap is modelled explicitly), and device traffic as an explicit
list of issued actions.  Device register layouts and the codec follow
the source line by line.
-/

namespace Turret

/-- C++ `static_cast<int>` applied to a `double`: truncation toward zero.
`Int.tdiv` of the reduced numerator by the (positive) denominator is
exactly truncation toward zero on ℚ. -/
def cppTrunc (q : ℚ) : Int := Int.tdiv q.num (q.den : Int)

/-- Modelled from the spec: `TurretCommand::Imu` is declared in
`turret.h`, which is absent from `src/`; per spec §3 it is a pair of
degree fields `x_deg` (yaw) and `y_deg` (pitch). -/
structure Imu where
  x_deg : ℚ := 0
  y_deg : ℚ := 0
deriving DecidableEq

/-- Modelled from the spec: `TurretCommand::Rate` (turret.h), a pair of
angular rates, zero-initialised by default. -/
structure Rate where
  x_deg_s : ℚ := 0
  y_deg_s : ℚ := 0
deriving DecidableEq

/-- Modelled from the spec: the `absolute` payload of a `TurretCommand`
(turret.h), absolute yaw/pitch targets in degrees. -/
structure AbsolutePos where
  x_deg : ℚ := 0
  y_deg : ℚ := 0
deriving DecidableEq

/-- Modelled from the spec: `TurretCommand` (turret.h): a sequence
number, mutually exclusive optional position payloads, and the laser
flag (spec §3). -/
structure TurretCommand where
  sequence : Nat := 0
  absolute : Option AbsolutePos := none
  imu : Option Imu := none
  rate : Option Rate := none
  laser_on : Bool := false
deriving DecidableEq

/-- Modelled from the spec: `Turret::Parameters` (turret.h): poll
period, device addresses, and the configured axis limits (spec §3). -/
structure Parameters where
  period_s : ℚ
  gimbal_address : Nat
  fire_control_address : Nat
  min_x_deg : ℚ
  max_x_deg : ℚ
  min_y_deg : ℚ
  max_y_deg : ℚ
deriving DecidableEq

/-- Modelled from the spec: `TurretData` (turret.h), the mutable state
snapshot; all fields default/zero at startup, `imu_command` starts
`none` (spec §3).  The wall-clock timestamp field is not modelled. -/
structure TurretData where
  imu_command : Option Imu := none
  imu : Imu := {}
  absolute : Imu := {}
  rate : Rate := {}
  fire_enabled : Bool := false
  agitator_enabled : Bool := false
  last_sequence : Nat := 0
deriving DecidableEq

/-- The all-default state a `Turret` starts with. -/
def initialData : TurretData := {}

/-- One device-facing effect issued by the controller.  `memRead`
models `ServoBase::MemRead` (address, register position, byte count);
`memWrite` models `ServoBase::MemWrite` with an explicit payload of
bytes; `ramWrite` models the typed `ServoBase::RamWrite` overload used
in `Turret::SetCommand`, carrying the register descriptor and the raw
integer value handed to the transport layer; `startTimer` models
re-arming the poll timer. -/
inductive Action where
  | memRead (address : Nat) (position : Nat) (length : Nat)
  | memWrite (address : Nat) (position : Nat) (data : List Nat)
  | ramWrite (address : Nat) (position : Nat) (length : Nat) (value : Int)
  | startTimer
deriving DecidableEq

/-- Timer completion codes seen by `Turret::Impl::HandleTimer`:
success, `boost::asio::error::operation_aborted`, or any other nonzero
error code. -/
inductive ErrorCode where
  | ok
  | operation_aborted
  | other (code : Nat)
deriving DecidableEq

namespace PitchCommand

/-- turret.cc:27-30. -/
def position : Nat := 0x50

/-- turret.cc:27-30. -/
def length : Nat := 4

end PitchCommand

namespace AbsoluteYawCommand

/-- turret.cc:37-40. -/
def position : Nat := 0x68

/-- turret.cc:37-40. -/
def length : Nat := 2

end AbsoluteYawCommand

namespace ImuPitch

/-- turret.cc:42-45. -/
def position : Nat := 0x58

/-- turret.cc:42-45. -/
def length : Nat := 4

end ImuPitch

namespace ImuYaw

/-- turret.cc:47-50. -/
def position : Nat := 0x5c

/-- turret.cc:47-50. -/
def length : Nat := 4

end ImuYaw

namespace AbsoluteYaw

/-- turret.cc:52-55. -/
def position : Nat := 0x60

/-- turret.cc:52-55. -/
def length : Nat := 2

end AbsoluteYaw

namespace LedControl

/-- turret.cc:57-60. -/
def position : Nat := 0x35

/-- turret.cc:57-60. -/
def length : Nat := 1

end LedControl

namespace Parser

/-- `Parser::get` (turret.cc:67-69): fetch byte `index` of the response
as a `uint8_t`.  Responses are modelled as lists of byte values; the
`.at` bounds check is not modelled (claims use in-range indices). -/
def get (response : List Nat) (index : Nat) : Nat :=
  response.getD index 0 % 256

/-- `Parser::get_int32` (turret.cc:71-81): reassemble four 7-bit groups
with bitwise or, then sign-extend: if the value is at least
`0x8000000` subtract `0x80 << 21` (the C++ subtraction of the `int`
constant from the `uint32_t` wraps mod 2^32 and the result is
reinterpreted as `int32_t`, which for these magnitudes is plain integer
subtraction). -/
def get_int32 (response : List Nat) (index : Nat) : Int :=
  let unextended : Nat :=
    get response index |||
    (get response (index + 1) <<< 7) |||
    (get response (index + 2) <<< 14) |||
    (get response (index + 3) <<< 21)
  if 0x8000000 ≤ unextended then
    (unextended : Int) - ((0x80 <<< 21 : Nat) : Int)
  else
    (unextended : Int)

end Parser

/-- `Turret::Impl::MakeCommand` (turret.cc:207-225): truncate each axis
times 1000 to `int`, then emit four 7-bit groups per axis (pitch first).
C++ `>> k` on `int` is arithmetic shift, i.e. flooring division by
`2^k`, and `& 0x7f` takes the nonnegative residue mod 128; both match
`Int` `/` and `%`. -/
def MakeCommand (command : Imu) : List Nat :=
  let pitch_command : Int := cppTrunc (command.y_deg * 1000)
  let yaw_command : Int := cppTrunc (command.x_deg * 1000)
  let u8 : Int → Nat := fun val => (val % 256).toNat
  [u8 (pitch_command % 128),
   u8 (pitch_command / 128 % 128),
   u8 (pitch_command / 16384 % 128),
   u8 (pitch_command / 2097152 % 128),
   u8 (yaw_command % 128),
   u8 (yaw_command / 128 % 128),
   u8 (yaw_command / 16384 % 128),
   u8 (yaw_command / 2097152 % 128)]

/-- `Turret::Impl::SendImuCommand` (turret.cc:227-235): write the
packed command bytes to the gimbal's pitch-command register. -/
def SendImuCommand (p : Parameters) (command : Imu) : Action :=
  Action.memWrite p.gimbal_address PitchCommand.position (MakeCommand command)

/-- The device-to-degrees mapping for the 14-bit absolute yaw field,
exactly as computed in `Turret::Impl::HandleCurrent` (turret.cc:176):
`(absolute_int - 0x3fff) / (0x7fff * 360.0)`. -/
def absolute14_to_deg (absolute_int : Nat) : ℚ :=
  ((absolute_int : ℚ) - 0x3fff) / (0x7fff * 360)

/-- The degrees-to-device mapping for the absolute yaw command register,
exactly as computed in `Turret::SetCommand` (turret.cc:294-297):
`std::max(0, std::min(0x3fff, int(limited_yaw_deg / 0x3fff * 360.0 + 0x1fff)))`. -/
def encode_absolute14 (limited_yaw_deg : ℚ) : Int :=
  max 0 (min 0x3fff (cppTrunc (limited_yaw_deg / 0x3fff * 360 + 0x1fff)))

/-- `Turret::Impl::DoPoll` (turret.cc:113-150): request the current
command if unknown; integrate an active rate into `imu_command`
(clamping pitch only) and send the updated command; always request IMU
and absolute telemetry. -/
def DoPoll (p : Parameters) (d : TurretData) : TurretData × List Action :=
  let readActions : List Action :=
    match d.imu_command with
    | none => [Action.memRead p.gimbal_address 0x50 8]
    | some _ => []
  let step2 : TurretData × List Action :=
    match d.imu_command with
    | some imuCmd =>
      if d.rate.x_deg_s ≠ 0 ∨ d.rate.y_deg_s ≠ 0 then
        let next : Imu :=
          { x_deg := imuCmd.x_deg + d.rate.x_deg_s * p.period_s
            y_deg := max p.min_y_deg (min p.max_y_deg
                       (imuCmd.y_deg + d.rate.y_deg_s * p.period_s)) }
        ({ d with imu_command := some next }, [SendImuCommand p next])
      else (d, [])
    | none => (d, [])
  (step2.1,
   readActions ++ step2.2 ++
     [Action.memRead p.gimbal_address ImuPitch.position
        (ImuPitch.length + ImuYaw.length + AbsoluteYaw.length)])

/-- `Turret::Impl::HandleCommand` (turret.cc:152-163): decode the pitch
and yaw command registers into `imu_command` (milli-degrees to
degrees). -/
def HandleCommand (response : List Nat) (d : TurretData) : TurretData :=
  let command : Imu :=
    { y_deg := (Parser.get_int32 response 0 : ℚ) / 1000
      x_deg := (Parser.get_int32 response 4 : ℚ) / 1000 }
  { d with imu_command := some command }

/-- `Turret::Impl::HandleCurrent` (turret.cc:165-186): decode measured
IMU pitch/yaw, mirror pitch into the absolute estimate, decode the
14-bit absolute yaw, then chain a read of the fire-control status. -/
def HandleCurrent (p : Parameters) (response : List Nat) (d : TurretData) :
    TurretData × List Action :=
  let imuMeasured : Imu :=
    { y_deg := (Parser.get_int32 response 0 : ℚ) / 1000
      x_deg := (Parser.get_int32 response 4 : ℚ) / 1000 }
  let absolute_int : Nat := Parser.get response 8 ||| (Parser.get response 9 <<< 7)
  ({ d with
      imu := imuMeasured
      absolute := { y_deg := imuMeasured.y_deg
                    x_deg := absolute14_to_deg absolute_int } },
   [Action.memRead p.fire_control_address 81 2])

/-- `Turret::Impl::HandleFireControl` (turret.cc:188-196): nonzero
status bytes set the fire and agitator flags. -/
def HandleFireControl (response : List Nat) (d : TurretData) : TurretData :=
  { d with
      fire_enabled := response.getD 0 0 ≠ 0
      agitator_enabled := response.getD 1 0 ≠ 0 }

/-- `Turret::Impl::HandleTimer` (turret.cc:105-111): an
operation-aborted completion returns silently; any other nonzero code
is fatal (`base::FailIf`); on success the timer is re-armed
(`StartTimer`) and the poll runs.  The `Bool` result records whether
the completion was treated as fatal. -/
def HandleTimer (p : Parameters) (d : TurretData) (ec : ErrorCode) :
    TurretData × List Action × Bool :=
  if ec = ErrorCode.operation_aborted then (d, [], false)
  else if ec ≠ ErrorCode.ok then (d, [], true)
  else
    let polled := DoPoll p d
    (polled.1, Action.startTimer :: polled.2, false)

/-- `Turret::SetCommand` (turret.cc:258-325): log the command, discard
it when its sequence equals `last_sequence`, otherwise arbitrate
absolute over IMU-relative over rate, and finally write the laser LED
byte.  The result is (new state, new command log, issued actions); the
log models `CommandLog` minus its timestamp. -/
def SetCommand (p : Parameters) (d : TurretData) (log : List TurretCommand)
    (command : TurretCommand) :
    TurretData × List TurretCommand × List Action :=
  let log2 := log ++ [command]
  if command.sequence = d.last_sequence then (d, log2, [])
  else
    let arbitrated : TurretData × List Action :=
      match command.absolute with
      | some absolute =>
        let limited_pitch_deg : ℚ :=
          max p.min_y_deg (min p.max_y_deg absolute.y_deg)
        let pitch_command : Int := cppTrunc (limited_pitch_deg * 1000)
        let limited_yaw_deg : ℚ :=
          max p.min_x_deg (min p.max_x_deg absolute.x_deg)
        let yaw_command : Int := encode_absolute14 limited_yaw_deg
        ({ d with imu_command := none, rate := {} },
         [Action.ramWrite p.gimbal_address PitchCommand.position
            PitchCommand.length pitch_command,
          Action.ramWrite p.gimbal_address AbsoluteYawCommand.position
            AbsoluteYawCommand.length yaw_command])
      | none =>
        match command.imu with
        | some imuCmd =>
          let stored : Imu :=
            { imuCmd with
                y_deg := max p.min_y_deg (min p.max_y_deg imuCmd.y_deg) }
          ({ d with imu_command := some stored, rate := {} },
           [SendImuCommand p imuCmd])
        | none =>
          match command.rate with
          | some rate => ({ d with rate := rate }, [])
          | none => (d, [])
    let leds : Nat := (if command.laser_on then 1 else 0) <<< 2
    (arbitrated.1, log2,
     arbitrated.2 ++
       [Action.ramWrite p.fire_control_address LedControl.position
          LedControl.length (leds : Int)])

/-- One externally observable event: a submitted command, a timer
completion, or one of the three poll-chain read completions. -/
inductive Event where
  | submit (command : TurretCommand)
  | timer (ec : ErrorCode)
  | commandResponse (response : List Nat)
  | currentResponse (response : List Nat)
  | fireControlResponse (response : List Nat)

/-- State transition of one event (device actions discarded). -/
def stepEvent (p : Parameters) (d : TurretData) (e : Event) : TurretData :=
  match e with
  | Event.submit c => (SetCommand p d [] c).1
  | Event.timer ec => (HandleTimer p d ec).1
  | Event.commandResponse r => HandleCommand r d
  | Event.currentResponse r => (HandleCurrent p r d).1
  | Event.fireControlResponse r => HandleFireControl r d

/-- Run a sequence of events from the startup state. -/
def run (p : Parameters) (events : List Event) : TurretData :=
  events.foldl (stepEvent p) initialData

/-- A fixture matching the spec §8 scenario: `period_s = 0.0025`,
pitch limits `[-30, 30]`; yaw limits and addresses chosen arbitrarily. -/
def sampleParameters : Parameters :=
  { period_s := 1 / 400
    gimbal_address := 2
    fire_control_address := 3
    min_x_deg := -90
    max_x_deg := 90
    min_y_deg := -30
    max_y_deg := 30 }

lemma cppTrunc_intCast (v : Int) : cppTrunc ((v : ℚ)) = v := by
  unfold cppTrunc
  rw [Rat.num_intCast, Rat.den_intCast, Nat.cast_one, Int.tdiv_one]

lemma cppTrunc_eq (q : ℚ) (v : Int) (h : q = (v : ℚ)) : cppTrunc q = v := by
  rw [h, cppTrunc_intCast]

lemma setCommand_imu_branch (p : Parameters) (d : TurretData)
    (log : List TurretCommand) (c : TurretCommand) (imuCmd : Imu)
    (habs : c.absolute = none) (himu : c.imu = some imuCmd)
    (hseq : c.sequence ≠ d.last_sequence) :
    SetCommand p d log c =
      ({ d with
           imu_command := some { imuCmd with
             y_deg := max p.min_y_deg (min p.max_y_deg imuCmd.y_deg) }
           rate := {} },
       log ++ [c],
       [SendImuCommand p imuCmd,
        Action.ramWrite p.fire_control_address LedControl.position LedControl.length
          (((if c.laser_on then 1 else 0) <<< 2 : Nat) : Int)]) := by
  unfold SetCommand
  rw [if_neg hseq, habs, himu]
  rfl

lemma setCommand_log (p : Parameters) (d : TurretData) (log : List TurretCommand)
    (c : TurretCommand) : (SetCommand p d log c).2.1 = log ++ [c] := by
  unfold SetCommand
  split
  · rfl
  · rfl

lemma setCommand_last_sequence (p : Parameters) (d : TurretData)
    (log : List TurretCommand) (c : TurretCommand) :
    (SetCommand p d log c).1.last_sequence = d.last_sequence := by
  unfold SetCommand
  split
  · rfl
  · rcases c with ⟨seq, abs, imu, rate, laser⟩
    dsimp only
    rcases abs with _ | a
    · rcases imu with _ | i
      · rcases rate with _ | r
        · rfl
        · rfl
      · rfl
    · rfl

lemma setCommand_accepted_actions_ne_nil (p : Parameters) (d : TurretData)
    (log : List TurretCommand) (c : TurretCommand)
    (hseq : c.sequence ≠ d.last_sequence) :
    (SetCommand p d log c).2.2 ≠ [] := by
  unfold SetCommand
  rw [if_neg hseq]
  simp

lemma setCommand_discarded (p : Parameters) (d : TurretData)
    (log : List TurretCommand) (c : TurretCommand)
    (hseq : c.sequence = d.last_sequence) :
    SetCommand p d log c = (d, log ++ [c], []) := by
  unfold SetCommand
  rw [if_pos hseq]

lemma doPoll_last_sequence (p : Parameters) (d : TurretData) :
    (DoPoll p d).1.last_sequence = d.last_sequence := by
  unfold DoPoll
  rcases h : d.imu_command with _ | i
  · simp only [h]
  · simp only [h]
    split
    · rfl
    · rfl

lemma stepEvent_last_sequence (p : Parameters) (d : TurretData) (e : Event) :
    (stepEvent p d e).last_sequence = d.last_sequence := by
  rcases e with c | ec | r | r | r
  · exact setCommand_last_sequence p d [] c
  · show (HandleTimer p d ec).1.last_sequence = d.last_sequence
    unfold HandleTimer
    split
    · rfl
    · split
      · rfl
      · exact doPoll_last_sequence p d
  · rfl
  · rfl
  · rfl

lemma run_last_sequence (p : Parameters) (events : List Event) :
    (run p events).last_sequence = initialData.last_sequence := by
  unfold run
  induction events using List.reverseRecOn with
  | nil => rfl
  | append_singleton es e ih =>
      rw [List.foldl_append, List.foldl_cons, List.foldl_nil,
        stepEvent_last_sequence, ih]

/-- C10: no handler or command path ever writes `last_sequence`: after
any sequence of submitted commands, timer completions and read
completions it still equals its startup value (zero), so the
deduplication guard in `SetCommand` fires exactly on commands whose
sequence equals that startup value. -/
theorem last_sequence_constant (p : Parameters) (events : List Event)
    (log : List TurretCommand) (c : TurretCommand) :
    (run p events).last_sequence = initialData.last_sequence ∧
    initialData.last_sequence = 0 ∧
    ((SetCommand p (run p events) log c).2.2 = [] ↔
      c.sequence = initialData.last_sequence) := by
  refine ⟨run_last_sequence p events, rfl, ?_⟩
  constructor
  · intro hnil
    by_contra hne
    exact setCommand_accepted_actions_ne_nil p (run p events) log c
      (by rw [run_last_sequence p events]; exact hne) hnil
  · intro heq
    rw [setCommand_discarded p (run p events) log c
      (by rw [run_last_sequence p events]; exact heq)]

/-- C9: an operation-aborted timer completion is silently dropped (no
re-arm, no poll, not fatal); any other nonzero completion code is
fatal; a successful completion re-arms the timer and runs the poll. -/
theorem handle_timer_outcomes (p : Parameters) (d : TurretData) (n : Nat) :
    HandleTimer p d ErrorCode.operation_aborted = (d, [], false) ∧
    HandleTimer p d (ErrorCode.other n) = (d, [], true) ∧
    HandleTimer p d ErrorCode.ok =
      ((DoPoll p d).1, Action.startTimer :: (DoPoll p d).2, false) := by
  refine ⟨rfl, ?_, rfl⟩
  unfold HandleTimer
  rw [if_neg (by simp), if_pos (by simp)]

/-- C2 counterexample: submitting the rate command `{sequence := 1,
rate := (10, 0)}` twice from startup arbitrates the second submission
as well: it issues a device write (the laser LED byte), contradicting
"the second ... produces no device writes". -/
theorem duplicate_sequence_counterexample :
    (SetCommand sampleParameters
        (SetCommand sampleParameters initialData []
          { sequence := 1, rate := some { x_deg_s := 10 } }).1
        (SetCommand sampleParameters initialData []
          { sequence := 1, rate := some { x_deg_s := 10 } }).2.1
        { sequence := 1, rate := some { x_deg_s := 10 } }).2.2 =
      [Action.ramWrite sampleParameters.fire_control_address LedControl.position
        LedControl.length 0] ∧
    ¬ (SetCommand sampleParameters
        (SetCommand sampleParameters initialData []
          { sequence := 1, rate := some { x_deg_s := 10 } }).1
        (SetCommand sampleParameters initialData []
          { sequence := 1, rate := some { x_deg_s := 10 } }).2.1
        { sequence := 1, rate := some { x_deg_s := 10 } }).2.2 = [] := by
  refine ⟨rfl, ?_⟩
  decide

/-- C2 amended: submitting two commands with identical `sequence`
deduplicates only when that sequence equals `last_sequence` (which no
operation ever updates): in that case both are discarded — each still
appends to the command log but neither changes state nor writes to a
device.  When the shared sequence differs from `last_sequence` the
second submission is arbitrated again and issues device writes. -/
theorem duplicate_sequence_behavior (p : Parameters) (d : TurretData)
    (log : List TurretCommand) (c1 c2 : TurretCommand)
    (hseq : c1.sequence = c2.sequence) :
    (SetCommand p (SetCommand p d log c1).1 (SetCommand p d log c1).2.1 c2).2.1
      = log ++ [c1] ++ [c2] ∧
    (c2.sequence = d.last_sequence →
      SetCommand p d log c1 = (d, log ++ [c1], []) ∧
      SetCommand p (SetCommand p d log c1).1 (SetCommand p d log c1).2.1 c2
        = (d, log ++ [c1] ++ [c2], [])) ∧
    (c2.sequence ≠ d.last_sequence →
      (SetCommand p (SetCommand p d log c1).1
        (SetCommand p d log c1).2.1 c2).2.2 ≠ []) := by
  refine ⟨?_, ?_, ?_⟩
  · rw [setCommand_log, setCommand_log]
  · intro heq
    have h1 : SetCommand p d log c1 = (d, log ++ [c1], []) :=
      setCommand_discarded p d log c1 (hseq.trans heq)
    refine ⟨h1, ?_⟩
    rw [h1]
    exact setCommand_discarded p d (log ++ [c1]) c2 heq
  · intro hne
    exact setCommand_accepted_actions_ne_nil p _ _ c2
      (by rw [setCommand_last_sequence]; exact hne)

/-- C2 witness: concrete duplicated sequence 0 (equal to the startup
`last_sequence`): both submissions are discarded, and with sequence 1
the second still writes. -/
theorem duplicate_sequence_behavior_witness :
    ((0 : Nat) = initialData.last_sequence) ∧
    ((SetCommand sampleParameters
        (SetCommand sampleParameters initialData []
          { sequence := 0, laser_on := true }).1
        (SetCommand sampleParameters initialData []
          { sequence := 0, laser_on := true }).2.1
        { sequence := 0, laser_on := true }).2.1
      = [] ++ [{ sequence := 0, laser_on := true }] ++
          [{ sequence := 0, laser_on := true }] ∧
    ((0 : Nat) = initialData.last_sequence →
      SetCommand sampleParameters initialData [] { sequence := 0, laser_on := true }
        = (initialData, [] ++ [{ sequence := 0, laser_on := true }], []) ∧
      SetCommand sampleParameters
        (SetCommand sampleParameters initialData []
          { sequence := 0, laser_on := true }).1
        (SetCommand sampleParameters initialData []
          { sequence := 0, laser_on := true }).2.1
        { sequence := 0, laser_on := true }
        = (initialData,
           [] ++ [{ sequence := 0, laser_on := true }] ++
             [{ sequence := 0, laser_on := true }], [])) ∧
    ((0 : Nat) ≠ initialData.last_sequence →
      (SetCommand sampleParameters
        (SetCommand sampleParameters initialData []
          { sequence := 0, laser_on := true }).1
        (SetCommand sampleParameters initialData []
          { sequence := 0, laser_on := true }).2.1
        { sequence := 0, laser_on := true }).2.2 ≠ [])) :=
  ⟨rfl, duplicate_sequence_behavior sampleParameters initialData []
    { sequence := 0, laser_on := true } { sequence := 0, laser_on := true } rfl⟩

/-- C8 counterexample: a command whose sequence equals `last_sequence`
is discarded before the laser write, so a submitted command with
`laser_on = true` can produce no fire-control write at all. -/
theorem laser_duplicate_dropped :
    ({ sequence := 0, laser_on := true : TurretCommand }).laser_on = true ∧
    (SetCommand sampleParameters initialData []
      { sequence := 0, laser_on := true }).2.2 = [] :=
  ⟨rfl, rfl⟩

/-- C8 amended: every *accepted* (non-duplicate) command produces a
write to the fire-control LED register whose byte has bit 2 set exactly
when `laser_on` is true (4 when on, 0 when off), whichever
position-control branch was taken. -/
theorem laser_write_on_accepted (p : Parameters) (d : TurretData)
    (log : List TurretCommand) (c : TurretCommand)
    (hseq : c.sequence ≠ d.last_sequence) :
    Action.ramWrite p.fire_control_address LedControl.position LedControl.length
        ((((if c.laser_on then 1 else 0) <<< 2 : Nat)) : Int)
      ∈ (SetCommand p d log c).2.2 ∧
    ((if c.laser_on then 1 else 0) <<< 2 : Nat) = (if c.laser_on then 4 else 0) := by
  constructor
  · unfold SetCommand
    rw [if_neg hseq]
    exact List.mem_append_right _ (List.mem_singleton_self _)
  · cases c.laser_on
    · rfl
    · rfl

/-- C8 witness: an accepted command with the laser on in the rate
branch produces the LED write with byte 4. -/
theorem laser_write_on_accepted_witness :
    ((1 : Nat) ≠ initialData.last_sequence) ∧
    (Action.ramWrite sampleParameters.fire_control_address LedControl.position
        LedControl.length
        ((((if ({ sequence := 1, rate := some { x_deg_s := 10 },
                   laser_on := true : TurretCommand }).laser_on
            then 1 else 0) <<< 2 : Nat)) : Int)
      ∈ (SetCommand sampleParameters initialData []
          { sequence := 1, rate := some { x_deg_s := 10 }, laser_on := true }).2.2 ∧
    ((if ({ sequence := 1, rate := some { x_deg_s := 10 },
             laser_on := true : TurretCommand }).laser_on
        then 1 else 0) <<< 2 : Nat)
      = (if ({ sequence := 1, rate := some { x_deg_s := 10 },
                laser_on := true : TurretCommand }).laser_on then 4 else 0)) :=
  ⟨by decide,
   laser_write_on_accepted sampleParameters initialData []
     { sequence := 1, rate := some { x_deg_s := 10 }, laser_on := true }
     (by decide)⟩

/-- C3: on a poll tick with a known `imu_command` and a nonzero rate,
the stored command is advanced by `rate * period_s` with only the pitch
clamped into `[min_y_deg, max_y_deg]`, and the tick issues exactly the
gimbal write of the encoded advanced command followed by the telemetry
read. -/
theorem rate_integration_poll (p : Parameters) (d : TurretData) (imuCmd : Imu)
    (hknown : d.imu_command = some imuCmd)
    (hrate : d.rate.x_deg_s ≠ 0 ∨ d.rate.y_deg_s ≠ 0) :
    (DoPoll p d).1.imu_command = some
      { x_deg := imuCmd.x_deg + d.rate.x_deg_s * p.period_s
        y_deg := max p.min_y_deg (min p.max_y_deg
                   (imuCmd.y_deg + d.rate.y_deg_s * p.period_s)) } ∧
    (DoPoll p d).2 =
      [SendImuCommand p
        { x_deg := imuCmd.x_deg + d.rate.x_deg_s * p.period_s
          y_deg := max p.min_y_deg (min p.max_y_deg
                     (imuCmd.y_deg + d.rate.y_deg_s * p.period_s)) },
       Action.memRead p.gimbal_address ImuPitch.position
         (ImuPitch.length + ImuYaw.length + AbsoluteYaw.length)] := by
  unfold DoPoll
  simp only [hknown]
  rw [if_pos hrate]
  exact ⟨rfl, rfl⟩

/-- C3 witness: the spec §8 scenario: from `imu_command = (5, -2)` and
`rate = (10, 0)` with `period_s = 1/400`, one tick stores
`x_deg = 5.025` (= 201/40) and issues the write encoding it. -/
theorem rate_integration_poll_witness :
    (DoPoll sampleParameters
        { imu_command := some { x_deg := 5, y_deg := -2 }
          rate := { x_deg_s := 10 } }).1.imu_command =
      some { x_deg := 201 / 40, y_deg := -2 } ∧
    (DoPoll sampleParameters
        { imu_command := some { x_deg := 5, y_deg := -2 }
          rate := { x_deg_s := 10 } }).2 =
      [SendImuCommand sampleParameters { x_deg := 201 / 40, y_deg := -2 },
       Action.memRead sampleParameters.gimbal_address ImuPitch.position
         (ImuPitch.length + ImuYaw.length + AbsoluteYaw.length)] ∧
    MakeCommand { x_deg := 201 / 40, y_deg := -2 } =
      [48, 112, 127, 127, 33, 39, 0, 0] := by
  have h := rate_integration_poll sampleParameters
    { imu_command := some { x_deg := 5, y_deg := -2 }
      rate := { x_deg_s := 10 } }
    { x_deg := 5, y_deg := -2 } rfl (Or.inl (by norm_num))
  have hval : ({ x_deg := (5 : ℚ) + 10 * sampleParameters.period_s
                 y_deg := max sampleParameters.min_y_deg
                   (min sampleParameters.max_y_deg
                     ((-2 : ℚ) + 0 * sampleParameters.period_s)) : Imu }) =
      { x_deg := 201 / 40, y_deg := -2 } := by
    simp only [sampleParameters, Imu.mk.injEq]
    norm_num [min_def, max_def]
  have hpitch : cppTrunc ((-2 : ℚ) * 1000) = -2000 := cppTrunc_eq _ _ (by norm_num)
  have hyaw : cppTrunc ((201 / 40 : ℚ) * 1000) = 5025 := cppTrunc_eq _ _ (by norm_num)
  have hmk : MakeCommand { x_deg := 201 / 40, y_deg := -2 } =
      [48, 112, 127, 127, 33, 39, 0, 0] := by
    simp only [MakeCommand]
    rw [hpitch, hyaw]
    decide
  refine ⟨?_, ?_, hmk⟩
  · rw [h.1, hval]
  · rw [h.2, hval]

/-- C4: an accepted absolute command clamps pitch into
`[min_y_deg, max_y_deg]` before encoding — when the requested pitch
exceeds `max_y_deg` the pitch register write carries exactly
`max_y_deg` encoded, when it is below `min_y_deg` it carries exactly
`min_y_deg` encoded — and the absolute-yaw register write carries the
yaw clamped into `[min_x_deg, max_x_deg]` before encoding. -/
theorem absolute_clamp (p : Parameters) (d : TurretData)
    (log : List TurretCommand) (c : TurretCommand) (absolute : AbsolutePos)
    (habs : c.absolute = some absolute)
    (hseq : c.sequence ≠ d.last_sequence)
    (hyy : p.min_y_deg ≤ p.max_y_deg) :
    (p.max_y_deg < absolute.y_deg →
      Action.ramWrite p.gimbal_address PitchCommand.position PitchCommand.length
        (cppTrunc (p.max_y_deg * 1000)) ∈ (SetCommand p d log c).2.2) ∧
    (absolute.y_deg < p.min_y_deg →
      Action.ramWrite p.gimbal_address PitchCommand.position PitchCommand.length
        (cppTrunc (p.min_y_deg * 1000)) ∈ (SetCommand p d log c).2.2) ∧
    Action.ramWrite p.gimbal_address AbsoluteYawCommand.position
        AbsoluteYawCommand.length
        (encode_absolute14 (max p.min_x_deg (min p.max_x_deg absolute.x_deg)))
      ∈ (SetCommand p d log c).2.2 := by
  have hacts : (SetCommand p d log c).2.2 =
      [Action.ramWrite p.gimbal_address PitchCommand.position PitchCommand.length
         (cppTrunc (max p.min_y_deg (min p.max_y_deg absolute.y_deg) * 1000)),
       Action.ramWrite p.gimbal_address AbsoluteYawCommand.position
         AbsoluteYawCommand.length
         (encode_absolute14 (max p.min_x_deg (min p.max_x_deg absolute.x_deg)))] ++
      [Action.ramWrite p.fire_control_address LedControl.position LedControl.length
         (((if c.laser_on then 1 else 0) <<< 2 : Nat) : Int)] := by
    unfold SetCommand
    rw [if_neg hseq, habs]
  refine ⟨?_, ?_, ?_⟩
  · intro hy
    have hclamp : max p.min_y_deg (min p.max_y_deg absolute.y_deg) = p.max_y_deg := by
      rw [min_eq_left (le_of_lt hy), max_eq_right hyy]
    rw [hacts, hclamp]
    exact List.mem_append_left _ (List.mem_cons_self _ _)
  · intro hy
    have hclamp : max p.min_y_deg (min p.max_y_deg absolute.y_deg) = p.min_y_deg := by
      rw [min_eq_right (le_of_lt (lt_of_lt_of_le hy hyy)), max_eq_left (le_of_lt hy)]
    rw [hacts, hclamp]
    exact List.mem_append_left _ (List.mem_cons_self _ _)
  · rw [hacts]
    exact List.mem_append_left _ (List.mem_cons_of_mem _ (List.mem_cons_self _ _))

/-- C4 witness: requesting absolute pitch 50 with limits `[-30, 30]`
produces a pitch write of `cppTrunc (30 * 1000) = 30000`, and the yaw
write of the clamped yaw. -/
theorem absolute_clamp_witness :
    (sampleParameters.max_y_deg < (50 : ℚ)) ∧
    (Action.ramWrite sampleParameters.gimbal_address PitchCommand.position
        PitchCommand.length (cppTrunc (sampleParameters.max_y_deg * 1000))
      ∈ (SetCommand sampleParameters initialData []
          { sequence := 1,
            absolute := some { x_deg := 0, y_deg := 50 } }).2.2) ∧
    cppTrunc (sampleParameters.max_y_deg * 1000) = 30000 := by
  have h := absolute_clamp sampleParameters initialData []
    { sequence := 1, absolute := some { x_deg := 0, y_deg := 50 } }
    { x_deg := 0, y_deg := 50 } rfl (by decide) (by norm_num [sampleParameters])
  refine ⟨by norm_num [sampleParameters], h.1 (by norm_num [sampleParameters]), ?_⟩
  exact cppTrunc_eq _ _ (by norm_num [sampleParameters])

/-- C7 counterexample: an accepted IMU-relative command with pitch 40
under limit 30 stores the clamped pitch 30 in `imu_command`, but the
issued gimbal write encodes the raw requested pitch 40 — no write of
the clamped value is issued. -/
theorem imu_relative_raw_write_counterexample :
    (SetCommand sampleParameters initialData []
        { sequence := 1, imu := some { x_deg := 0, y_deg := 40 } }).1.imu_command =
      some { x_deg := 0, y_deg := 30 } ∧
    SendImuCommand sampleParameters { x_deg := 0, y_deg := 40 }
      ∈ (SetCommand sampleParameters initialData []
          { sequence := 1, imu := some { x_deg := 0, y_deg := 40 } }).2.2 ∧
    SendImuCommand sampleParameters { x_deg := 0, y_deg := 30 }
      ∉ (SetCommand sampleParameters initialData []
          { sequence := 1, imu := some { x_deg := 0, y_deg := 40 } }).2.2 := by
  have h := setCommand_imu_branch sampleParameters initialData []
    { sequence := 1, imu := some { x_deg := 0, y_deg := 40 } }
    { x_deg := 0, y_deg := 40 } rfl rfl (by decide)
  have hclamp : ({ x_deg := (0 : ℚ)
                   y_deg := max sampleParameters.min_y_deg
                     (min sampleParameters.max_y_deg (40 : ℚ)) : Imu }) =
      { x_deg := 0, y_deg := 30 } := by
    simp only [sampleParameters, Imu.mk.injEq]
    norm_num [min_def, max_def]
  have h30 : cppTrunc ((30 : ℚ) * 1000) = 30000 := cppTrunc_eq _ _ (by norm_num)
  have h40 : cppTrunc ((40 : ℚ) * 1000) = 40000 := cppTrunc_eq _ _ (by norm_num)
  have hmkne : MakeCommand { x_deg := 0, y_deg := 30 } ≠
      MakeCommand { x_deg := 0, y_deg := 40 } := by
    have h0 : cppTrunc ((0 : ℚ) * 1000) = 0 := cppTrunc_eq _ _ (by norm_num)
    simp only [MakeCommand]
    rw [h30, h40, h0]
    decide
  refine ⟨?_, ?_, ?_⟩
  · rw [h]
    exact congrArg some hclamp
  · rw [h]
    exact List.mem_cons_self _ _
  · rw [h]
    intro hmem
    rcases List.mem_cons.mp hmem with heq | hmem2
    · have hdata : MakeCommand { x_deg := 0, y_deg := 30 } =
          MakeCommand { x_deg := 0, y_deg := 40 } := by
        simpa [SendImuCommand] using heq
      exact hmkne hdata
    · rcases List.mem_cons.mp hmem2 with heq2 | hnil
      · simp [SendImuCommand] at heq2
      · exact absurd hnil (List.not_mem_nil _)

/-- C7 amended: an accepted IMU-relative command stores the command
with pitch clamped into `[min_y_deg, max_y_deg]` into `imu_command`,
resets the rate to zero, and immediately issues the gimbal write
encoding the *raw* requested command (not the clamped one), followed by
the laser LED write. -/
theorem imu_relative_branch (p : Parameters) (d : TurretData)
    (log : List TurretCommand) (c : TurretCommand) (imuCmd : Imu)
    (habs : c.absolute = none) (himu : c.imu = some imuCmd)
    (hseq : c.sequence ≠ d.last_sequence) :
    (SetCommand p d log c).1.imu_command =
      some { imuCmd with
               y_deg := max p.min_y_deg (min p.max_y_deg imuCmd.y_deg) } ∧
    (SetCommand p d log c).1.rate = {} ∧
    (SetCommand p d log c).2.2 =
      [SendImuCommand p imuCmd,
       Action.ramWrite p.fire_control_address LedControl.position LedControl.length
         (((if c.laser_on then 1 else 0) <<< 2 : Nat) : Int)] := by
  unfold SetCommand
  rw [if_neg hseq, habs, himu]
  exact ⟨rfl, rfl, rfl⟩

/-- C7 witness: the amended statement at the counterexample's input:
stored pitch 30, written command pitch 40. -/
theorem imu_relative_branch_witness :
    (SetCommand sampleParameters initialData []
        { sequence := 1, imu := some { x_deg := 0, y_deg := 40 } }).1.imu_command =
      some { x_deg := 0,
             y_deg := max sampleParameters.min_y_deg
                        (min sampleParameters.max_y_deg 40) } ∧
    (SetCommand sampleParameters initialData []
        { sequence := 1, imu := some { x_deg := 0, y_deg := 40 } }).1.rate = {} ∧
    (SetCommand sampleParameters initialData []
        { sequence := 1, imu := some { x_deg := 0, y_deg := 40 } }).2.2 =
      [SendImuCommand sampleParameters { x_deg := 0, y_deg := 40 },
       Action.ramWrite sampleParameters.fire_control_address LedControl.position
         LedControl.length
         (((if ({ sequence := 1,
                   imu := some { x_deg := 0, y_deg := 40 } : TurretCommand }).laser_on
             then 1 else 0) <<< 2 : Nat) : Int)] :=
  imu_relative_branch sampleParameters initialData []
    { sequence := 1, imu := some { x_deg := 0, y_deg := 40 } }
    { x_deg := 0, y_deg := 40 } rfl rfl (by decide)

lemma lor_shift_eq_add {a : Nat} (b n : Nat) (h : a < 2 ^ n) :
    a ||| (b <<< n) = a + b * 2 ^ n := by
  calc a ||| (b <<< n) = a ||| b * 2 ^ n := by rw [Nat.shiftLeft_eq]
    _ = (2 ^ n * b) ||| a := by rw [Nat.lor_comm, Nat.mul_comm]
    _ = 2 ^ n * b + a := (Nat.mul_add_lt_is_or h b).symm
    _ = a + b * 2 ^ n := by ring

lemma parser_get_int32_eq (l : List Nat) (i : Nat)
    (h0 : Parser.get l i < 128) (h1 : Parser.get l (i + 1) < 128)
    (h2 : Parser.get l (i + 2) < 128) (h3 : Parser.get l (i + 3) < 128) :
    Parser.get_int32 l i =
      ((Parser.get l i : Int) + Parser.get l (i + 1) * 128
          + Parser.get l (i + 2) * 16384 + Parser.get l (i + 3) * 2097152
          + 134217728) % 268435456 - 134217728 := by
  unfold Parser.get_int32
  have e1 : Parser.get l i ||| (Parser.get l (i + 1) <<< 7) =
      Parser.get l i + Parser.get l (i + 1) * 128 :=
    lor_shift_eq_add _ 7 h0
  have e2 : Parser.get l i + Parser.get l (i + 1) * 128 |||
        (Parser.get l (i + 2) <<< 14) =
      Parser.get l i + Parser.get l (i + 1) * 128 +
        Parser.get l (i + 2) * 16384 :=
    lor_shift_eq_add _ 14 (by omega)
  have e3 : Parser.get l i + Parser.get l (i + 1) * 128 +
        Parser.get l (i + 2) * 16384 ||| (Parser.get l (i + 3) <<< 21) =
      Parser.get l i + Parser.get l (i + 1) * 128 +
        Parser.get l (i + 2) * 16384 + Parser.get l (i + 3) * 2097152 :=
    lor_shift_eq_add _ 21 (by omega)
  rw [e1, e2, e3]
  have hshift : ((128 <<< 21 : Nat) : Int) = 268435456 := by
    norm_num [Nat.shiftLeft_eq]
  dsimp only
  split
  · rw [hshift]
    push_cast
    omega
  · push_cast
    omega

lemma parser_get_int32_eq_bytes (l : List Nat) (i : Nat) (c0 c1 c2 c3 : Nat)
    (e0 : Parser.get l i = c0) (e1 : Parser.get l (i + 1) = c1)
    (e2 : Parser.get l (i + 2) = c2) (e3 : Parser.get l (i + 3) = c3)
    (h0 : c0 < 128) (h1 : c1 < 128) (h2 : c2 < 128) (h3 : c3 < 128) :
    Parser.get_int32 l i =
      ((c0 : Int) + c1 * 128 + c2 * 16384 + c3 * 2097152 + 134217728)
        % 268435456 - 134217728 := by
  have h := parser_get_int32_eq l i (by rw [e0]; exact h0) (by rw [e1]; exact h1)
    (by rw [e2]; exact h2) (by rw [e3]; exact h3)
  rw [e0, e1, e2, e3] at h
  exact h

/-- C1 counterexample: at bytes `(0, 0, 0, 0x40)` the reassembled
28-bit value is exactly `0x8000000`; the code returns
`0x8000000 - 0x10000000 = -0x8000000`, while subtracting `0x8000000`
as the claim states would give `0`. -/
theorem get_int32_subtrahend_counterexample :
    Parser.get_int32 [0, 0, 0, 0x40] 0 = -134217728 ∧
    ((0 ||| (0 <<< 7) ||| (0 <<< 14) ||| (0x40 <<< 21) : Nat) : Int) - 0x8000000 = 0 ∧
    Parser.get_int32 [0, 0, 0, 0x40] 0 ≠
      ((0 ||| (0 <<< 7) ||| (0 <<< 14) ||| (0x40 <<< 21) : Nat) : Int) - 0x8000000 := by
  refine ⟨by decide, by decide, by decide⟩

/-- C1 amended: `get_int32` reassembles `b0 | b1<<7 | b2<<14 | b3<<21`
and, when that value is at least `0x8000000`, subtracts `0x10000000`
(`0x80 << 21`, i.e. 2^28) — not `0x8000000`; on 7-bit bytes this is
exactly the two's-complement interpretation of the 28-bit value. -/
theorem get_int32_sign_extend (b0 b1 b2 b3 : Nat)
    (h0 : b0 < 128) (h1 : b1 < 128) (h2 : b2 < 128) (h3 : b3 < 128) :
    Parser.get_int32 [b0, b1, b2, b3] 0 =
      ((b0 : Int) + b1 * 128 + b2 * 16384 + b3 * 2097152 + 134217728) % 268435456
        - 134217728 ∧
    ((b0 ||| (b1 <<< 7) ||| (b2 <<< 14) ||| (b3 <<< 21) : Nat) < 0x8000000 →
      Parser.get_int32 [b0, b1, b2, b3] 0 =
        ((b0 ||| (b1 <<< 7) ||| (b2 <<< 14) ||| (b3 <<< 21) : Nat) : Int)) ∧
    (0x8000000 ≤ (b0 ||| (b1 <<< 7) ||| (b2 <<< 14) ||| (b3 <<< 21) : Nat) →
      Parser.get_int32 [b0, b1, b2, b3] 0 =
        ((b0 ||| (b1 <<< 7) ||| (b2 <<< 14) ||| (b3 <<< 21) : Nat) : Int)
          - 0x10000000) := by
  have hg0 : Parser.get [b0, b1, b2, b3] 0 = b0 := by
    have hb : b0 < 256 := by omega
    simp [Parser.get, Nat.mod_eq_of_lt hb]
  have hg1 : Parser.get [b0, b1, b2, b3] 1 = b1 := by
    have hb : b1 < 256 := by omega
    simp [Parser.get, Nat.mod_eq_of_lt hb]
  have hg2 : Parser.get [b0, b1, b2, b3] 2 = b2 := by
    have hb : b2 < 256 := by omega
    simp [Parser.get, Nat.mod_eq_of_lt hb]
  have hg3 : Parser.get [b0, b1, b2, b3] 3 = b3 := by
    have hb : b3 < 256 := by omega
    simp [Parser.get, Nat.mod_eq_of_lt hb]
  refine ⟨?_, ?_, ?_⟩
  · have h := parser_get_int32_eq [b0, b1, b2, b3] 0
      (by rw [hg0]; exact h0) (by rw [hg1]; exact h1)
      (by rw [hg2]; exact h2) (by rw [hg3]; exact h3)
    rw [hg0, hg1, hg2, hg3] at h
    exact h
  · intro hlt
    unfold Parser.get_int32
    rw [hg0, hg1, hg2, hg3, if_neg (not_le.mpr hlt)]
  · intro hle
    unfold Parser.get_int32
    rw [hg0, hg1, hg2, hg3, if_pos hle]
    norm_num [Nat.shiftLeft_eq]

/-- C1 witness: all-`0x7f` bytes reassemble to `0xfffffff` and decode
to `-1` under the corrected subtraction. -/
theorem get_int32_sign_extend_witness :
    Parser.get_int32 [127, 127, 127, 127] 0 =
      ((127 : Int) + 127 * 128 + 127 * 16384 + 127 * 2097152 + 134217728)
        % 268435456 - 134217728 ∧
    ((127 ||| (127 <<< 7) ||| (127 <<< 14) ||| (127 <<< 21) : Nat) < 0x8000000 →
      Parser.get_int32 [127, 127, 127, 127] 0 =
        ((127 ||| (127 <<< 7) ||| (127 <<< 14) ||| (127 <<< 21) : Nat) : Int)) ∧
    (0x8000000 ≤ (127 ||| (127 <<< 7) ||| (127 <<< 14) ||| (127 <<< 21) : Nat) →
      Parser.get_int32 [127, 127, 127, 127] 0 =
        ((127 ||| (127 <<< 7) ||| (127 <<< 14) ||| (127 <<< 21) : Nat) : Int)
          - 0x10000000) :=
  get_int32_sign_extend 127 127 127 127
    (by decide) (by decide) (by decide) (by decide)

set_option maxHeartbeats 1000000 in
/-- C5: for every integer `v` in `[-2^27, 2^27 - 1]` (per axis),
encoding `v / 1000` degrees with `MakeCommand` and decoding the
resulting four bytes with `get_int32` yields back exactly `v` — the
7-bit fixed-point codec round-trips over the full signed 28-bit
range. -/
theorem signed28_round_trip (v w : Int)
    (hv0 : -134217728 ≤ v) (hv1 : v < 134217728)
    (hw0 : -134217728 ≤ w) (hw1 : w < 134217728) :
    Parser.get_int32
      (MakeCommand { x_deg := (w : ℚ) / 1000, y_deg := (v : ℚ) / 1000 }) 0 = v ∧
    Parser.get_int32
      (MakeCommand { x_deg := (w : ℚ) / 1000, y_deg := (v : ℚ) / 1000 }) 4 = w := by
  have hpc : cppTrunc ((v : ℚ) / 1000 * 1000) = v :=
    cppTrunc_eq _ _ (div_mul_cancel₀ ((v : ℚ)) (by norm_num : (1000 : ℚ) ≠ 0))
  have hyc : cppTrunc ((w : ℚ) / 1000 * 1000) = w :=
    cppTrunc_eq _ _ (div_mul_cancel₀ ((w : ℚ)) (by norm_num : (1000 : ℚ) ≠ 0))
  have hu8 : ∀ x : Int, ((x % 128) % 256).toNat = (x % 128).toNat := by
    intro x
    omega
  have hmk : MakeCommand { x_deg := (w : ℚ) / 1000, y_deg := (v : ℚ) / 1000 } =
      [(v % 128).toNat, (v / 128 % 128).toNat,
       (v / 16384 % 128).toNat, (v / 2097152 % 128).toNat,
       (w % 128).toNat, (w / 128 % 128).toNat,
       (w / 16384 % 128).toNat, (w / 2097152 % 128).toNat] := by
    simp only [MakeCommand]
    rw [hpc, hyc]
    simp only [hu8]
  have hb0 : Parser.get
      (MakeCommand { x_deg := (w : ℚ) / 1000, y_deg := (v : ℚ) / 1000 }) 0 =
      (v % 128).toNat := by
    simp only [Parser.get, hmk, List.getD_cons_zero]
    omega
  have hb1 : Parser.get
      (MakeCommand { x_deg := (w : ℚ) / 1000, y_deg := (v : ℚ) / 1000 }) 1 =
      (v / 128 % 128).toNat := by
    simp only [Parser.get, hmk, List.getD_cons_succ, List.getD_cons_zero]
    omega
  have hb2 : Parser.get
      (MakeCommand { x_deg := (w : ℚ) / 1000, y_deg := (v : ℚ) / 1000 }) 2 =
      (v / 16384 % 128).toNat := by
    simp only [Parser.get, hmk, List.getD_cons_succ, List.getD_cons_zero]
    omega
  have hb3 : Parser.get
      (MakeCommand { x_deg := (w : ℚ) / 1000, y_deg := (v : ℚ) / 1000 }) 3 =
      (v / 2097152 % 128).toNat := by
    simp only [Parser.get, hmk, List.getD_cons_succ, List.getD_cons_zero]
    omega
  have hb4 : Parser.get
      (MakeCommand { x_deg := (w : ℚ) / 1000, y_deg := (v : ℚ) / 1000 }) 4 =
      (w % 128).toNat := by
    simp only [Parser.get, hmk, List.getD_cons_succ, List.getD_cons_zero]
    omega
  have hb5 : Parser.get
      (MakeCommand { x_deg := (w : ℚ) / 1000, y_deg := (v : ℚ) / 1000 }) 5 =
      (w / 128 % 128).toNat := by
    simp only [Parser.get, hmk, List.getD_cons_succ, List.getD_cons_zero]
    omega
  have hb6 : Parser.get
      (MakeCommand { x_deg := (w : ℚ) / 1000, y_deg := (v : ℚ) / 1000 }) 6 =
      (w / 16384 % 128).toNat := by
    simp only [Parser.get, hmk, List.getD_cons_succ, List.getD_cons_zero]
    omega
  have hb7 : Parser.get
      (MakeCommand { x_deg := (w : ℚ) / 1000, y_deg := (v : ℚ) / 1000 }) 7 =
      (w / 2097152 % 128).toNat := by
    simp only [Parser.get, hmk, List.getD_cons_succ, List.getD_cons_zero]
    omega
  constructor
  · rw [parser_get_int32_eq_bytes _ 0 _ _ _ _ hb0 hb1 hb2 hb3
      (by omega) (by omega) (by omega) (by omega)]
    clear hb0 hb1 hb2 hb3 hb4 hb5 hb6 hb7 hmk hpc hyc hu8
    omega
  · rw [parser_get_int32_eq_bytes _ 4 _ _ _ _ hb4 hb5 hb6 hb7
      (by omega) (by omega) (by omega) (by omega)]
    clear hb0 hb1 hb2 hb3 hb4 hb5 hb6 hb7 hmk hpc hyc hu8
    omega

/-- C5 witness: the pair `v = -2000`, `w = 5025` (milli-degrees of the
spec scenario) round-trips through encode and decode. -/
theorem signed28_round_trip_witness :
    (-134217728 ≤ (-2000 : Int)) ∧ ((-2000 : Int) < 134217728) ∧
    (-134217728 ≤ (5025 : Int)) ∧ ((5025 : Int) < 134217728) ∧
    (Parser.get_int32
        (MakeCommand { x_deg := ((5025 : Int) : ℚ) / 1000
                       y_deg := ((-2000 : Int) : ℚ) / 1000 }) 0 = -2000 ∧
     Parser.get_int32
        (MakeCommand { x_deg := ((5025 : Int) : ℚ) / 1000
                       y_deg := ((-2000 : Int) : ℚ) / 1000 }) 4 = 5025) :=
  ⟨by decide, by decide, by decide, by decide,
   signed28_round_trip (-2000) 5025 (by decide) (by decide) (by decide) (by decide)⟩

/-- C6 counterexample: `encode_absolute14` is not the inverse of the
decode mapping `(value - 0x3fff) / (0x7fff * 360)`: encoding the
in-range degree value `0` gives `0x1fff`, which decodes to
`-1024/1474515`, off from `0` by far more than one encoding unit
(`1 / (0x7fff * 360)`). -/
theorem encode_absolute14_not_inverse_of_decode :
    encode_absolute14 0 = 0x1fff ∧
    absolute14_to_deg (Int.toNat (encode_absolute14 0)) = -(1024 / 1474515 : ℚ) ∧
    ¬ |absolute14_to_deg (Int.toNat (encode_absolute14 0)) - 0| ≤
        1 / ((0x7fff : ℚ) * 360) := by
  have he : encode_absolute14 0 = 8191 := by
    unfold encode_absolute14
    rw [cppTrunc_eq _ 8191 (by norm_num)]
    decide
  have hd : absolute14_to_deg 8191 = -(1024 / 1474515 : ℚ) := by
    unfold absolute14_to_deg
    norm_num
  refine ⟨he, ?_, ?_⟩
  · rw [he]
    exact hd
  · rw [he]
    show ¬ |absolute14_to_deg 8191 - 0| ≤ 1 / ((0x7fff : ℚ) * 360)
    rw [hd]
    rw [sub_zero, abs_of_neg (by norm_num)]
    norm_num

/-- C6 amended: `encode_absolute14` computes
`clamp(trunc(value_deg / 0x3fff * 360 + 0x1fff), 0, 0x3fff)`; it is the
exact inverse of the affine mapping
`degrees = (value - 0x1fff) * 0x3fff / 360` on `[0, 0x3fff]` — not of
the decode mapping `(value - 0x3fff) / (0x7fff * 360)` used for
telemetry, with which it does not round-trip. -/
theorem encode_absolute14_inverse_of_shifted_map (v : Int)
    (h0 : 0 ≤ v) (h1 : v ≤ 0x3fff) :
    encode_absolute14 (((v : ℚ) - 0x1fff) * 0x3fff / 360) = v := by
  unfold encode_absolute14
  have harg : ((v : ℚ) - 0x1fff) * 0x3fff / 360 / 0x3fff * 360 + 0x1fff =
      ((v : Int) : ℚ) := by
    ring
  rw [cppTrunc_eq _ v harg, min_eq_right h1, max_eq_right h0]

/-- C6 witness: the shifted-map inverse at the top of the range. -/
theorem encode_absolute14_inverse_of_shifted_map_witness :
    ((0 : Int) ≤ 16383) ∧ ((16383 : Int) ≤ 0x3fff) ∧
    encode_absolute14 ((((16383 : Int) : ℚ) - 0x1fff) * 0x3fff / 360) = 16383 :=
  ⟨by decide, by decide,
   encode_absolute14_inverse_of_shifted_map 16383 (by decide) (by decide)⟩

end Turret
